import Mathlib

/-!
Verification development for the RAG request-handler application (`app.py`).

The application is a thin orchestration layer: the POST /query handler
(`query_documents`) validates a `QueryRequest`, calls the search service
(`search_documents`), then the generation service (`generate_answer`),
and either returns a `ChatResponse` or converts any raised exception into
a 500 error response.

Embedding conventions:
* JSON values are modelled by `JValue`; JSON numbers carry a `Rat`
  (exact decimals; the code never performs arithmetic on them).
* Python dicts consumed by the code are association lists
  (`Record = List (String × JValue)`); `dict.get(k, d)` is `recordGet`,
  `k in d` is `recordHas`, `d[k]` is `pyGetKey`.
* Python exceptions are the `PyError` type and fallible code returns
  `Except PyError _`; `str(e)` is `PyError.text` (FastAPI's
  `HTTPException.__str__` renders as "<status>: <detail>").
* The two outbound HTTP calls are suspension points whose responses are
  inputs (`SearchResponse`, `OpenAIResponse`, bundled in `Env`); each
  stage is split at its call site: the request body construction before
  the call, the status check and payload extraction after it.
* `query_documents` additionally returns the list of outbound calls the
  request issued (`OutCall`), so that "the generation service is never
  invoked" is a statement about the trace.
-/

/-- A JSON value as consumed by the application. Numbers are exact
rationals (decimal literals such as 0.7 embed exactly). -/
inductive JValue where
  | null : JValue
  | bool : Bool → JValue
  | num : Rat → JValue
  | str : String → JValue
  | arr : List JValue → JValue
  | obj : List (String × JValue) → JValue

/-- A raw search-result record: an opaque JSON object (Python dict),
fields consumed by name. -/
abbrev Record := List (String × JValue)

/-- First-match association-list lookup: Python dict indexing semantics
(dict keys are unique, so first match is the match). -/
def rlookup : List (String × JValue) → String → Option JValue
  | [], _ => none
  | (k, v) :: rest, key => if k = key then some v else rlookup rest key

/-- Python `d.get(key, default)`. -/
def recordGet (r : Record) (key : String) (d : JValue) : JValue :=
  (rlookup r key).getD d

/-- Python `key in d`. -/
def recordHas (r : Record) (key : String) : Bool :=
  (rlookup r key).isSome

/-- Python exceptions raised by the request-handling code. -/
inductive PyError where
  | httpError : Nat → String → PyError
  | keyError : String → PyError
  | indexError : PyError
  | typeError : String → PyError
  | validationError : String → PyError

/-- Python `str(e)`. FastAPI's `HTTPException.__str__` is
`f"{status_code}: {detail}"`; `KeyError` renders its key quoted;
`IndexError` from a list subscript carries this fixed message. -/
def PyError.text : PyError → String
  | .httpError status detail => toString status ++ ": " ++ detail
  | .keyError key => "\x27" ++ key ++ "\x27"
  | .indexError => "list index out of range"
  | .typeError msg => msg
  | .validationError msg => msg

/-- Python `v[key]` on a JSON value: `KeyError` when the key is absent,
`TypeError` when the value is not an object. -/
def pyGetKey (v : JValue) (key : String) : Except PyError JValue :=
  match v with
  | .obj fields =>
    match rlookup fields key with
    | some x => .ok x
    | none => .error (.keyError key)
  | _ => .error (.typeError "object is not subscriptable")

/-- Python `v[i]` on a JSON value: `IndexError` when out of range,
`TypeError` when the value is not an array. -/
def pyGetIdx (v : JValue) (i : Nat) : Except PyError JValue :=
  match v with
  | .arr xs =>
    match xs.get? i with
    | some x => .ok x
    | none => .error .indexError
  | _ => .error (.typeError "object is not subscriptable")

/-- The items of `sep.join(items)` must all be strings; a non-string
item raises `TypeError`, checked left to right. -/
def pyAsStr : JValue → Except PyError String
  | .str s => .ok s
  | _ => .error (.typeError "sequence item: expected str instance")

/-- String coercion of every item, left to right, for `sep.join`. -/
def pyJoinStrs : List JValue → Except PyError (List String)
  | [] => .ok []
  | v :: rest =>
    match pyAsStr v with
    | .error e => .error e
    | .ok s =>
      match pyJoinStrs rest with
      | .error e => .error e
      | .ok ss => .ok (s :: ss)

/-- Python `sep.join(items)`. -/
def pyJoin (sep : String) (items : List JValue) : Except PyError String :=
  match pyJoinStrs items with
  | .error e => .error e
  | .ok ss => .ok (String.intercalate sep ss)

/-- The pydantic request model: `query: str`,
`top_k: int = 3`, `filter: Optional[str] = None` (app.py lines 44-47). -/
structure QueryRequest where
  query : String
  top_k : Int
  filter : Option String

/-- Pydantic validation of `top_k`: when present it must be an integer
(an integral JSON number), otherwise it defaults to 3. No positivity
bound is declared. -/
def parseTopK (body : List (String × JValue)) : Except PyError Int :=
  match rlookup body "top_k" with
  | none => .ok 3
  | some (.num n) =>
    if n.den = 1 then .ok n.num
    else .error (.validationError "top_k: Input should be a valid integer")
  | some _ => .error (.validationError "top_k: Input should be a valid integer")

/-- Pydantic validation of `filter`: when present it must be a string or
null, otherwise it defaults to None (absent). -/
def parseFilter (body : List (String × JValue)) : Except PyError (Option String) :=
  match rlookup body "filter" with
  | none => .ok none
  | some .null => .ok none
  | some (.str s) => .ok (some s)
  | some _ => .error (.validationError "filter: Input should be a valid string")

/-- Pydantic validation of the inbound JSON body against `QueryRequest`:
`query` is required and must be a string; `top_k` and `filter` as above.
No other constraint is declared: there is no minimum length on `query`
and no positivity bound on `top_k`, so `{"query": "", "top_k": 0}` is
accepted. -/
def parseQueryRequest (body : List (String × JValue)) : Except PyError QueryRequest :=
  match rlookup body "query" with
  | some (.str q) =>
    match parseTopK body with
    | .error e => .error e
    | .ok k =>
      match parseFilter body with
      | .error e => .error e
      | .ok f => .ok ⟨q, k, f⟩
  | some _ => .error (.validationError "query: Input should be a valid string")
  | none => .error (.validationError "query: Field required")

/-- The pydantic response model (app.py lines 49-51): `answer: str`,
`sources: List[Dict[str, Any]]`. -/
structure ChatResponse where
  answer : String
  sources : List Record

/-- `ChatResponse(answer=answer, sources=sources)`: pydantic validates
that `answer` is a string (a non-string raises ValidationError inside
the handler's try block). -/
def mkChatResponse (answer : JValue) (sources : List Record) : Except PyError ChatResponse :=
  match answer with
  | .str s => .ok ⟨s, sources⟩
  | _ => .error (.validationError "answer: Input should be a valid string")

/-- The search request body (app.py lines 78-94): hybrid semantic +
text-vector search over the same query, `k` and `top` both `top_k`;
`if filter_param:` appends the filter only when it is non-None and
non-empty (Python truthiness of an optional string). -/
def search_body (query : String) (top_k : Int) (filter_param : Option String) :
    List (String × JValue) :=
  let base : List (String × JValue) :=
    [("search", JValue.str query),
     ("queryType", JValue.str "semantic"),
     ("vectorQueries", JValue.arr
        [JValue.obj
          [("kind", JValue.str "text"),
           ("text", JValue.str query),
           ("fields", JValue.str "text_vector"),
           ("k", JValue.num (top_k : Rat))]]),
     ("top", JValue.num (top_k : Rat))]
  match filter_param with
  | some s => if s ≠ "" then base ++ [("filter", JValue.str s)] else base
  | none => base

/-- The search service's HTTP response, as far as the code consumes it:
status code, raw body text (`response.text`), and the `value` field of
the parsed JSON body when that key is present (`response.json()`). -/
structure SearchResponse where
  status_code : Nat
  text : String
  valueField : Option (List Record)

/-- `search_documents` after its outbound call (app.py lines 112-117):
a non-200 status raises `HTTPException(status_code, response.text)`;
otherwise the result is `results.get("value", [])` — a missing `value`
key yields the empty record list. The enclosing try/except logs and
re-raises, leaving the error unchanged. -/
def search_documents (query : String) (top_k : Int) (filter_param : Option String)
    (resp : SearchResponse) : Except PyError (List Record) :=
  if resp.status_code ≠ 200 then
    .error (.httpError resp.status_code resp.text)
  else
    .ok (resp.valueField.getD [])

/-- One pass over the records (app.py lines 132-143): a record with a
`chunk` key contributes `result["chunk"]` to the context chunks; every
record unconditionally contributes one source dict with the documented
defaults. -/
def mkSource (result : Record) : Record :=
  [("title", recordGet result "title" (JValue.str "Unknown Document")),
   ("url", recordGet result "url" (JValue.str "")),
   ("chunk_id", recordGet result "id" (JValue.str "")),
   ("score", recordGet result "@search.score" (JValue.num 0))]

/-- The loop of app.py lines 132-143, left to right: context chunks from
records having a `chunk` key (the guarded subscript `result["chunk"]`
always succeeds, so the `.null` default of `recordGet` is unreachable),
one source per record. -/
def extractContextAndSources : List Record → List JValue × List Record
  | [] => ([], [])
  | result :: rest =>
    let (cs, ss) := extractContextAndSources rest
    (if recordHas result "chunk" then recordGet result "chunk" JValue.null :: cs else cs,
     mkSource result :: ss)

/-- Deployment name: environment-provided, modelled at its default
`"gpt-4o"` (app.py line 41). -/
def AZURE_OPENAI_DEPLOYMENT : String := "gpt-4o"

/-- The fixed system instruction (app.py lines 152-160). -/
def systemPrompt : String :=
  "You are a helpful assistant that provides information based on the context provided. \x0a" ++
  "                Follow these guidelines:\x0a" ++
  "                1. Answer ONLY based on provided context\x0a" ++
  "                2. If unsure, say \"I don\x27t have that information\"\x0a" ++
  "                3. Cite the source document name when possible\x0a" ++
  "                4. Be concise but complete\x0a" ++
  "                5. Use bullet points for lists\x0a" ++
  "                6. Do not hallucinate or make up information\x0a" ++
  "                "

/-- The user message (app.py lines 164-173): an f-string embedding the
context block and the original query. -/
def userPrompt (context : String) (query : String) : String :=
  "Context:\x0a                " ++ context ++
  "\x0a                \x0a                Question: " ++ query ++
  "\x0a                \x0a                Instructions:\x0a" ++
  "                - Provide a direct answer\x0a" ++
  "                - Cite the relevant document when possible\x0a" ++
  "                - If multiple documents apply, summarize each\x0a" ++
  "                "

/-- The generation request body (app.py lines 149-183): the two-message
prompt plus fixed generation parameters (temperature 0.7, max_tokens
800) and the deployment name as model. -/
def openai_body (query : String) (context : String) : List (String × JValue) :=
  [("messages", JValue.arr
      [JValue.obj [("role", JValue.str "system"), ("content", JValue.str systemPrompt)],
       JValue.obj [("role", JValue.str "user"), ("content", JValue.str (userPrompt context query))]]),
   ("model", JValue.str AZURE_OPENAI_DEPLOYMENT),
   ("temperature", JValue.num ((7 : Rat) / 10)),
   ("max_tokens", JValue.num 800)]

/-- `generate_answer` before its outbound call (app.py lines 129-189):
builds context chunks and sources in one pass, joins the chunks with a
blank-line separator (`"\n\n".join`, which raises on a non-string
chunk), and builds the generation request body. A failure here means
the generation call is never issued. -/
def generate_prepare (query : String) (search_results : List Record) :
    Except PyError (List (String × JValue) × List Record) :=
  let context_chunks := (extractContextAndSources search_results).1
  let sources := (extractContextAndSources search_results).2
  match pyJoin "\x0a\x0a" context_chunks with
  | .error e => .error e
  | .ok context => .ok (openai_body query context, sources)

/-- The generation service's HTTP response: status code, raw body text,
parsed JSON body. -/
structure OpenAIResponse where
  status_code : Nat
  text : String
  body : JValue

/-- `result["choices"][0]["message"]["content"]` (app.py line 206):
each subscript may raise (`KeyError`, `IndexError`, `TypeError`). -/
def extract_answer (result : JValue) : Except PyError JValue :=
  match pyGetKey result "choices" with
  | .error e => .error e
  | .ok choices =>
    match pyGetIdx choices 0 with
    | .error e => .error e
    | .ok first =>
      match pyGetKey first "message" with
      | .error e => .error e
      | .ok message => pyGetKey message "content"

/-- `generate_answer` after its outbound call (app.py lines 201-208):
a non-200 status raises `HTTPException(status_code, response.text)`;
otherwise the answer is extracted from the payload and paired with the
sources built before the call. The enclosing try/except logs and
re-raises, leaving the error unchanged. -/
def generate_finish (resp : OpenAIResponse) (sources : List Record) :
    Except PyError (JValue × List Record) :=
  if resp.status_code ≠ 200 then
    .error (.httpError resp.status_code resp.text)
  else
    match extract_answer resp.body with
    | .error e => .error e
    | .ok answer => .ok (answer, sources)

/-- `generate_answer(query, search_results)` as a whole, the response to
its outbound call given as input. -/
def generate_answer (query : String) (search_results : List Record)
    (resp : OpenAIResponse) : Except PyError (JValue × List Record) :=
  match generate_prepare query search_results with
  | .error e => .error e
  | .ok (_, sources) => generate_finish resp sources

/-- The responses the two external services would give this request. -/
structure Env where
  searchResp : SearchResponse
  openaiResp : OpenAIResponse

/-- An outbound HTTP call issued while handling one request, with its
request body. -/
inductive OutCall where
  | search : List (String × JValue) → OutCall
  | openai : List (String × JValue) → OutCall

/-- The POST /query handler's result: either a validated `ChatResponse`
or the uniform error raised at the handler boundary
(`HTTPException(status_code=500, detail=...)`). -/
inductive HandlerResult where
  | ok : ChatResponse → HandlerResult
  | err : Nat → String → HandlerResult

/-- The handler's except clause (app.py lines 68-70): every exception is
converted into a 500 whose detail embeds `str(e)`. -/
def handlerErr (e : PyError) : HandlerResult :=
  .err 500 ("Error processing query: " ++ e.text)

/-- `query_documents` (app.py lines 57-70): search, then generate, then
construct the `ChatResponse`; any exception from any step is caught at
this boundary and converted by `handlerErr`. The second component is
the trace of outbound calls the request issued: the search call is
always made (its body construction cannot fail); the generation call is
made only when `generate_prepare` succeeded. -/
def query_documents (req : QueryRequest) (env : Env) :
    HandlerResult × List OutCall :=
  let sbody := search_body req.query req.top_k req.filter
  match search_documents req.query req.top_k req.filter env.searchResp with
  | .error e => (handlerErr e, [.search sbody])
  | .ok search_results =>
    match generate_prepare req.query search_results with
    | .error e => (handlerErr e, [.search sbody])
    | .ok (obody, sources) =>
      match generate_finish env.openaiResp sources with
      | .error e => (handlerErr e, [.search sbody, .openai obody])
      | .ok (answer, srcs) =>
        match mkChatResponse answer srcs with
        | .error e => (handlerErr e, [.search sbody, .openai obody])
        | .ok c => (.ok c, [.search sbody, .openai obody])

/-- Generation response payload with one choice carrying content "hi",
used as a concrete conforming upstream response. -/
def okBody : JValue :=
  JValue.obj
    [("choices", JValue.arr
        [JValue.obj [("message", JValue.obj [("content", JValue.str "hi")])]])]

/-- Environment where the search service answers 503. -/
def env503 : Env := ⟨⟨503, "Service Unavailable", none⟩, ⟨200, "", okBody⟩⟩

/-- Environment where the search service answers 200 with two records
despite the request's `top_k` limit. -/
def envOverflow : Env := ⟨⟨200, "", some [[], []]⟩, ⟨200, "", okBody⟩⟩

/-- Environment where the search service answers 200 with zero records. -/
def envEmpty : Env := ⟨⟨200, "", some []⟩, ⟨200, "", okBody⟩⟩

/-- Three records: two with a `chunk` field, one without. -/
def rsEx : List Record :=
  [[("chunk", JValue.str "a")], [], [("chunk", JValue.str "b")]]

lemma extract_snd_eq (rs : List Record) :
    (extractContextAndSources rs).2 = rs.map mkSource := by
  induction rs with
  | nil => rfl
  | cons r rest ih => simp [extractContextAndSources, ih]

lemma extract_fst_eq (rs : List Record) :
    (extractContextAndSources rs).1
      = (rs.filter (fun r => recordHas r "chunk")).map
          (fun r => recordGet r "chunk" JValue.null) := by
  induction rs with
  | nil => rfl
  | cons r rest ih =>
    by_cases h : recordHas r "chunk" <;>
      simp [extractContextAndSources, List.filter_cons, h, ih]

lemma pyJoinStrs_map_str (ss : List String) :
    pyJoinStrs (ss.map JValue.str) = .ok ss := by
  induction ss with
  | nil => rfl
  | cons s rest ih => simp [pyJoinStrs, pyAsStr, ih]

lemma search_documents_fail (q : String) (k : Int) (f : Option String)
    (resp : SearchResponse) (h : resp.status_code ≠ 200) :
    search_documents q k f resp = .error (.httpError resp.status_code resp.text) := by
  simp [search_documents, h]

lemma generate_prepare_ok_sources (q : String) (rs : List Record)
    (b : List (String × JValue)) (sources : List Record)
    (h : generate_prepare q rs = .ok (b, sources)) :
    sources = rs.map mkSource := by
  simp only [generate_prepare] at h
  cases hj : pyJoin "\x0a\x0a" (extractContextAndSources rs).1 with
  | error e => rw [hj] at h; simp at h
  | ok context =>
    rw [hj] at h
    simp only [Except.ok.injEq, Prod.mk.injEq] at h
    rw [← h.2, extract_snd_eq]

lemma generate_finish_ok_sources (resp : OpenAIResponse)
    (sources : List Record) (ans : JValue) (srcs : List Record)
    (h : generate_finish resp sources = .ok (ans, srcs)) :
    srcs = sources := by
  unfold generate_finish at h
  by_cases hs : resp.status_code ≠ 200
  · rw [if_pos hs] at h; simp at h
  · rw [if_neg hs] at h
    cases he : extract_answer resp.body with
    | error e => rw [he] at h; simp at h
    | ok answer =>
      rw [he] at h
      simp only [Except.ok.injEq, Prod.mk.injEq] at h
      exact h.2.symm

lemma mkChatResponse_ok_sources (ans : JValue) (srcs : List Record)
    (c : ChatResponse) (h : mkChatResponse ans srcs = .ok c) :
    c.sources = srcs := by
  cases ans with
  | str s =>
    simp only [mkChatResponse, Except.ok.injEq] at h
    rw [← h]
  | null => simp [mkChatResponse] at h
  | bool b => simp [mkChatResponse] at h
  | num n => simp [mkChatResponse] at h
  | arr xs => simp [mkChatResponse] at h
  | obj fs => simp [mkChatResponse] at h

/-- C2: for every list of retrieved records, `generate_answer` derives its
sources list 1:1 from the records in the same order (so the lengths are
equal), taking `title` from the record's `title` field defaulting to
"Unknown Document", `url` defaulting to "", `chunk_id` from the record's
`id` field defaulting to "", and `score` from the record's
`@search.score` field defaulting to 0; a record missing any of these
fields never causes a failure (`mkSource` is total). -/
theorem C2_sources_derivation (query : String) (rs : List Record)
    (resp : OpenAIResponse) (ans : JValue) (srcs : List Record)
    (h : generate_answer query rs resp = .ok (ans, srcs)) :
    srcs = rs.map mkSource
    ∧ srcs.length = rs.length
    ∧ (∀ r : Record, rlookup r "title" = none →
        rlookup (mkSource r) "title" = some (JValue.str "Unknown Document"))
    ∧ (∀ (r : Record) (v : JValue), rlookup r "title" = some v →
        rlookup (mkSource r) "title" = some v)
    ∧ (∀ r : Record, rlookup r "url" = none →
        rlookup (mkSource r) "url" = some (JValue.str ""))
    ∧ (∀ (r : Record) (v : JValue), rlookup r "url" = some v →
        rlookup (mkSource r) "url" = some v)
    ∧ (∀ r : Record, rlookup r "id" = none →
        rlookup (mkSource r) "chunk_id" = some (JValue.str ""))
    ∧ (∀ (r : Record) (v : JValue), rlookup r "id" = some v →
        rlookup (mkSource r) "chunk_id" = some v)
    ∧ (∀ r : Record, rlookup r "@search.score" = none →
        rlookup (mkSource r) "score" = some (JValue.num 0))
    ∧ (∀ (r : Record) (v : JValue), rlookup r "@search.score" = some v →
        rlookup (mkSource r) "score" = some v) := by
  have hsrcs : srcs = rs.map mkSource := by
    unfold generate_answer at h
    cases hp : generate_prepare query rs with
    | error e => rw [hp] at h; simp at h
    | ok pr =>
      rw [hp] at h
      have hsources := generate_prepare_ok_sources query rs pr.1 pr.2 (by rw [hp])
      have := generate_finish_ok_sources resp pr.2 ans srcs h
      rw [this, hsources]
  refine ⟨hsrcs, by rw [hsrcs]; simp, ?_, ?_, ?_, ?_, ?_, ?_, ?_, ?_⟩ <;>
    intros r <;> intros <;>
    simp_all [mkSource, rlookup, recordGet]

/-- C2 witness: one record with none of the consumed fields still yields
a successful generation whose single source carries all the defaults. -/
theorem C2_sources_derivation_witness :
    [mkSource ([] : Record)] = [([] : Record)].map mkSource
    ∧ [mkSource ([] : Record)].length = [([] : Record)].length :=
  ⟨(C2_sources_derivation "q" [[]] ⟨200, "", okBody⟩ (JValue.str "hi")
      [mkSource []] rfl).1,
   (C2_sources_derivation "q" [[]] ⟨200, "", okBody⟩ (JValue.str "hi")
      [mkSource []] rfl).2.1⟩

/-- C3: the grounding context is built in one left-to-right pass —
exactly the records containing a `chunk` key contribute their chunk
value, in input order; the chunks are joined with a blank-line
separator; zero chunks give the empty context block; a record without
`chunk` still contributes a source (one source per record). -/
theorem C3_context_assembly (rs : List Record) :
    (extractContextAndSources rs).1
        = (rs.filter (fun r => recordHas r "chunk")).map
            (fun r => recordGet r "chunk" JValue.null)
    ∧ (∀ ss : List String, (extractContextAndSources rs).1 = ss.map JValue.str →
        pyJoin "\x0a\x0a" (extractContextAndSources rs).1
          = .ok (String.intercalate "\x0a\x0a" ss))
    ∧ ((∀ r ∈ rs, recordHas r "chunk" = false) →
        pyJoin "\x0a\x0a" (extractContextAndSources rs).1 = .ok "")
    ∧ (extractContextAndSources rs).2.length = rs.length := by
  refine ⟨extract_fst_eq rs, ?_, ?_, by rw [extract_snd_eq]; simp⟩
  · intro ss hss
    rw [hss]
    simp [pyJoin, pyJoinStrs_map_str]
  · intro hall
    have hfil : rs.filter (fun r => recordHas r "chunk") = [] := by
      simp only [List.filter_eq_nil_iff]
      intro r hr
      simp [hall r hr]
    rw [extract_fst_eq, hfil]
    rfl

/-- C3 witness: two records carrying chunks "a" and "b" around a
chunk-less record yield the context block "a\n\nb". -/
theorem C3_context_assembly_witness :
    pyJoin "\x0a\x0a" (extractContextAndSources rsEx).1
      = .ok (String.intercalate "\x0a\x0a" ["a", "b"]) :=
  (C3_context_assembly rsEx).2.1 ["a", "b"] rfl

/-- C9: a 200 search response whose payload lacks the `value` key makes
`search_documents` return the empty record list, exactly like "no
matches", rather than raising. -/
theorem C9_missing_value_key (q : String) (k : Int) (f : Option String)
    (resp : SearchResponse) (h200 : resp.status_code = 200)
    (hnone : resp.valueField = none) :
    search_documents q k f resp = .ok [] := by
  simp [search_documents, h200, hnone]

/-- C9 witness: concrete 200 response with no `value` key. -/
theorem C9_missing_value_key_witness :
    search_documents "q" 3 none ⟨200, "", none⟩ = .ok [] :=
  C9_missing_value_key "q" 3 none ⟨200, "", none⟩ rfl rfl

/-- C4: whenever the search service answers non-200, the handler returns
the uniform error response with the upstream status preserved in the
message, and the generation service is never invoked (the call trace is
the single search call). -/
theorem C4_search_failure_blocks_generation (req : QueryRequest) (env : Env)
    (h : env.searchResp.status_code ≠ 200) :
    query_documents req env
      = (HandlerResult.err 500
          ("Error processing query: "
            ++ (toString env.searchResp.status_code ++ ": " ++ env.searchResp.text)),
         [OutCall.search (search_body req.query req.top_k req.filter)]) := by
  simp only [query_documents,
    search_documents_fail req.query req.top_k req.filter env.searchResp h,
    handlerErr, PyError.text]

/-- C4 witness: with the search service answering 503, the handler emits
a 500 carrying "503" in its message and issues no generation call. -/
theorem C4_search_failure_blocks_generation_witness :
    query_documents ⟨"x", 3, none⟩ env503
      = (HandlerResult.err 500
          "Error processing query: 503: Service Unavailable",
         [OutCall.search (search_body "x" 3 none)]) :=
  C4_search_failure_blocks_generation ⟨"x", 3, none⟩ env503 (by decide)

/-- C5: on a non-success status from its outbound call, each stage fails
with the error carrying the upstream status code and body and does not
recover locally: `search_documents` raises it directly, and
`generate_answer` raises it whenever its pre-call work succeeded (the
call is only made in that case). -/
theorem C5_stage_errors (q : String) (k : Int) (f : Option String)
    (sresp : SearchResponse) (rs : List Record) (oresp : OpenAIResponse) :
    (sresp.status_code ≠ 200 →
      search_documents q k f sresp
        = .error (.httpError sresp.status_code sresp.text))
    ∧ (∀ (b : List (String × JValue)) (sources : List Record),
        generate_prepare q rs = .ok (b, sources) → oresp.status_code ≠ 200 →
        generate_answer q rs oresp
          = .error (.httpError oresp.status_code oresp.text)) := by
  refine ⟨search_documents_fail q k f sresp, ?_⟩
  intro b sources hp ho
  simp [generate_answer, hp, generate_finish, ho]

/-- C5 witness: a 503 search response and a 502 generation response each
surface as the corresponding stage error carrying status and body. -/
theorem C5_stage_errors_witness :
    search_documents "q" 3 none ⟨503, "boom", none⟩
        = .error (.httpError 503 "boom")
    ∧ generate_answer "q" [] ⟨502, "bad gateway", JValue.null⟩
        = .error (.httpError 502 "bad gateway") :=
  ⟨(C5_stage_errors "q" 3 none ⟨503, "boom", none⟩ []
      ⟨502, "bad gateway", JValue.null⟩).1 (by decide),
   (C5_stage_errors "q" 3 none ⟨503, "boom", none⟩ []
      ⟨502, "bad gateway", JValue.null⟩).2 (openai_body "q" "") [] rfl (by decide)⟩

lemma qd_search_err (req : QueryRequest) (env : Env) (e : PyError)
    (hs : search_documents req.query req.top_k req.filter env.searchResp = .error e) :
    query_documents req env
      = (handlerErr e,
         [OutCall.search (search_body req.query req.top_k req.filter)]) := by
  simp [query_documents, hs]

lemma qd_prepare_err (req : QueryRequest) (env : Env) (rs : List Record) (e : PyError)
    (hs : search_documents req.query req.top_k req.filter env.searchResp = .ok rs)
    (hp : generate_prepare req.query rs = .error e) :
    query_documents req env
      = (handlerErr e,
         [OutCall.search (search_body req.query req.top_k req.filter)]) := by
  simp [query_documents, hs, hp]

lemma qd_finish_err (req : QueryRequest) (env : Env) (rs : List Record)
    (b : List (String × JValue)) (sources : List Record) (e : PyError)
    (hs : search_documents req.query req.top_k req.filter env.searchResp = .ok rs)
    (hp : generate_prepare req.query rs = .ok (b, sources))
    (hf : generate_finish env.openaiResp sources = .error e) :
    query_documents req env
      = (handlerErr e,
         [OutCall.search (search_body req.query req.top_k req.filter),
          OutCall.openai b]) := by
  simp [query_documents, hs, hp, hf]

lemma qd_mk_err (req : QueryRequest) (env : Env) (rs : List Record)
    (b : List (String × JValue)) (sources : List Record)
    (ans : JValue) (srcs : List Record) (e : PyError)
    (hs : search_documents req.query req.top_k req.filter env.searchResp = .ok rs)
    (hp : generate_prepare req.query rs = .ok (b, sources))
    (hf : generate_finish env.openaiResp sources = .ok (ans, srcs))
    (hm : mkChatResponse ans srcs = .error e) :
    query_documents req env
      = (handlerErr e,
         [OutCall.search (search_body req.query req.top_k req.filter),
          OutCall.openai b]) := by
  simp [query_documents, hs, hp, hf, hm]

lemma qd_ok (req : QueryRequest) (env : Env) (rs : List Record)
    (b : List (String × JValue)) (sources : List Record)
    (ans : JValue) (srcs : List Record) (c : ChatResponse)
    (hs : search_documents req.query req.top_k req.filter env.searchResp = .ok rs)
    (hp : generate_prepare req.query rs = .ok (b, sources))
    (hf : generate_finish env.openaiResp sources = .ok (ans, srcs))
    (hm : mkChatResponse ans srcs = .ok c) :
    query_documents req env
      = (HandlerResult.ok c,
         [OutCall.search (search_body req.query req.top_k req.filter),
          OutCall.openai b]) := by
  simp [query_documents, hs, hp, hf, hm]

/-- C1 counterexample: the handler never truncates — when the search
service returns two records against `top_k = 1`, the handler returns a
full `ChatResponse` whose sources list has length 2 > top_k, refuting
"sources list has length at most top_k" as an unconditional property. -/
theorem C1_counterexample :
    (query_documents ⟨"q", 1, none⟩ envOverflow).1
      = HandlerResult.ok ⟨"hi", [mkSource [], mkSource []]⟩
    ∧ ¬(((ChatResponse.mk "hi" [mkSource [], mkSource []]).sources.length : Int)
          ≤ (QueryRequest.mk "q" 1 none).top_k) :=
  ⟨rfl, by decide⟩

/-- C1 (amended): for every request and environment, the handler returns
either a 500 error response or a full `ChatResponse` whose sources are
exactly the records the Retriever returned, mapped 1:1 in order (hence
at most top_k of them whenever the search service honors the top_k
limit); there is no third shape and no partial response. -/
theorem C1_response_shape (req : QueryRequest) (env : Env) :
    (∃ msg, (query_documents req env).1 = HandlerResult.err 500 msg)
    ∨ (∃ (c : ChatResponse) (rs : List Record),
        search_documents req.query req.top_k req.filter env.searchResp = .ok rs
        ∧ (query_documents req env).1 = HandlerResult.ok c
        ∧ c.sources = rs.map mkSource) := by
  cases hs : search_documents req.query req.top_k req.filter env.searchResp with
  | error e =>
    exact Or.inl ⟨"Error processing query: " ++ e.text,
      by rw [qd_search_err req env e hs]; rfl⟩
  | ok rs =>
    cases hp : generate_prepare req.query rs with
    | error e =>
      exact Or.inl ⟨"Error processing query: " ++ e.text,
        by rw [qd_prepare_err req env rs e hs hp]; rfl⟩
    | ok pr =>
      obtain ⟨b, sources⟩ := pr
      cases hf : generate_finish env.openaiResp sources with
      | error e =>
        exact Or.inl ⟨"Error processing query: " ++ e.text,
          by rw [qd_finish_err req env rs b sources e hs hp hf]; rfl⟩
      | ok asr =>
        obtain ⟨ans, srcs⟩ := asr
        cases hm : mkChatResponse ans srcs with
        | error e =>
          exact Or.inl ⟨"Error processing query: " ++ e.text,
            by rw [qd_mk_err req env rs b sources ans srcs e hs hp hf hm]; rfl⟩
        | ok c =>
          refine Or.inr ⟨c, rs, rfl,
            by rw [qd_ok req env rs b sources ans srcs c hs hp hf hm], ?_⟩
          rw [mkChatResponse_ok_sources ans srcs c hm,
            generate_finish_ok_sources env.openaiResp sources ans srcs hf,
            generate_prepare_ok_sources req.query rs b sources hp]

/-- C7: when the Retriever returns zero records the generation call is
still issued, exactly once, with the empty string as the context block;
on a successful generation (200 status with an extractable string
answer) the handler returns that answer with an empty sources list. -/
theorem C7_empty_records_still_generates (req : QueryRequest) (env : Env)
    (h : search_documents req.query req.top_k req.filter env.searchResp = .ok []) :
    (query_documents req env).2
      = [OutCall.search (search_body req.query req.top_k req.filter),
         OutCall.openai (openai_body req.query "")]
    ∧ (∀ s : String, env.openaiResp.status_code = 200 →
        extract_answer env.openaiResp.body = .ok (JValue.str s) →
        (query_documents req env).1 = HandlerResult.ok ⟨s, []⟩) := by
  have hp : generate_prepare req.query [] = .ok (openai_body req.query "", []) := rfl
  constructor
  · cases hf : generate_finish env.openaiResp [] with
    | error e =>
      rw [qd_finish_err req env [] (openai_body req.query "") [] e h hp hf]
    | ok asr =>
      obtain ⟨ans, srcs⟩ := asr
      cases hm : mkChatResponse ans srcs with
      | error e =>
        rw [qd_mk_err req env [] (openai_body req.query "") [] ans srcs e h hp hf hm]
      | ok c =>
        rw [qd_ok req env [] (openai_body req.query "") [] ans srcs c h hp hf hm]
  · intro s h200 hex
    have hf : generate_finish env.openaiResp [] = .ok (JValue.str s, []) := by
      simp [generate_finish, h200, hex]
    have hm : mkChatResponse (JValue.str s) [] = .ok ⟨s, []⟩ := rfl
    rw [qd_ok req env [] (openai_body req.query "") [] (JValue.str s) []
      ⟨s, []⟩ h hp hf hm]

/-- C7 witness: query "y" against an empty result set still produces one
generation call with empty context and the answer with no sources. -/
theorem C7_empty_records_still_generates_witness :
    (query_documents ⟨"y", 3, none⟩ envEmpty).2
      = [OutCall.search (search_body "y" 3 none),
         OutCall.openai (openai_body "y" "")]
    ∧ (query_documents ⟨"y", 3, none⟩ envEmpty).1
      = HandlerResult.ok ⟨"hi", []⟩ :=
  ⟨(C7_empty_records_still_generates ⟨"y", 3, none⟩ envEmpty rfl).1,
   (C7_empty_records_still_generates ⟨"y", 3, none⟩ envEmpty rfl).2 "hi" rfl rfl⟩

/-- C8 counterexample: pydantic enforces neither a non-empty `query` nor
`top_k > 0` — the body `{"query": "", "top_k": 0}` is accepted verbatim,
and the resulting request reaches the Retriever (the search call is
issued for it), refuting the claimed invariant. -/
theorem C8_counterexample :
    parseQueryRequest [("query", JValue.str ""), ("top_k", JValue.num 0)]
      = .ok ⟨"", 0, none⟩
    ∧ ¬(("" : String) ≠ "" ∧ (0 : Int) > 0)
    ∧ (query_documents ⟨"", 0, none⟩ env503).2
      = [OutCall.search (search_body "" 0 none)] :=
  ⟨rfl, by decide, rfl⟩

/-- C8 (amended): accepted requests have a string `query` (possibly
empty) and an integer `top_k` (possibly ≤ 0): `top_k` defaults to 3 and
`filter` to absent when not supplied, a missing or non-string `query` is
rejected, and every request that reaches the handler issues the search
call first (no request is filtered out before the Retriever). -/
theorem C8_validation_behaviour :
    (∀ s : String, parseQueryRequest [("query", JValue.str s)] = .ok ⟨s, 3, none⟩)
    ∧ (∀ s fs : String,
        parseQueryRequest [("query", JValue.str s), ("filter", JValue.str fs)]
          = .ok ⟨s, 3, some fs⟩)
    ∧ parseQueryRequest [] = .error (.validationError "query: Field required")
    ∧ parseQueryRequest [("query", JValue.num 1)]
        = .error (.validationError "query: Input should be a valid string")
    ∧ (∀ (req : QueryRequest) (env : Env),
        (query_documents req env).2.head?
          = some (OutCall.search (search_body req.query req.top_k req.filter))) := by
  refine ⟨fun s => rfl, fun s fs => rfl, rfl, rfl, ?_⟩
  intro req env
  cases hs : search_documents req.query req.top_k req.filter env.searchResp with
  | error e => rw [qd_search_err req env e hs]; rfl
  | ok rs =>
    cases hp : generate_prepare req.query rs with
    | error e => rw [qd_prepare_err req env rs e hs hp]; rfl
    | ok pr =>
      obtain ⟨b, sources⟩ := pr
      cases hf : generate_finish env.openaiResp sources with
      | error e => rw [qd_finish_err req env rs b sources e hs hp hf]; rfl
      | ok asr =>
        obtain ⟨ans, srcs⟩ := asr
        cases hm : mkChatResponse ans srcs with
        | error e => rw [qd_mk_err req env rs b sources ans srcs e hs hp hf hm]; rfl
        | ok c => rw [qd_ok req env rs b sources ans srcs c hs hp hf hm]; rfl

/-- C6: the outbound search body combines full-text semantic search and
a text vector query over the same query string, with the vector `k` and
the `top` field both equal to top_k; a present non-empty filter appears
verbatim under the `filter` key, and an absent or empty filter leaves
the body without a `filter` key. -/
theorem C6_search_body_shape (query : String) (top_k : Int) (f : Option String) :
    rlookup (search_body query top_k f) "search" = some (JValue.str query)
    ∧ rlookup (search_body query top_k f) "queryType" = some (JValue.str "semantic")
    ∧ rlookup (search_body query top_k f) "vectorQueries"
        = some (JValue.arr
            [JValue.obj
              [("kind", JValue.str "text"),
               ("text", JValue.str query),
               ("fields", JValue.str "text_vector"),
               ("k", JValue.num (top_k : Rat))]])
    ∧ rlookup (search_body query top_k f) "top" = some (JValue.num (top_k : Rat))
    ∧ (∀ s : String, f = some s → s ≠ "" →
        rlookup (search_body query top_k f) "filter" = some (JValue.str s))
    ∧ ((f = none ∨ f = some "") →
        rlookup (search_body query top_k f) "filter" = none) := by
  cases f with
  | none =>
    exact ⟨rfl, rfl, rfl, rfl, fun s hs _ => Option.noConfusion hs, fun _ => rfl⟩
  | some s0 =>
    by_cases h0 : s0 = ""
    · subst h0
      refine ⟨rfl, rfl, rfl, rfl, ?_, fun _ => rfl⟩
      intro s hs hne
      injection hs with h
      exact absurd h.symm hne
    · have hb : search_body query top_k (some s0)
          = [("search", JValue.str query),
             ("queryType", JValue.str "semantic"),
             ("vectorQueries", JValue.arr
                [JValue.obj
                  [("kind", JValue.str "text"),
                   ("text", JValue.str query),
                   ("fields", JValue.str "text_vector"),
                   ("k", JValue.num (top_k : Rat))]]),
             ("top", JValue.num (top_k : Rat)),
             ("filter", JValue.str s0)] := by
        simp [search_body, h0]
      refine ⟨?_, ?_, ?_, ?_, ?_, ?_⟩
      · rw [hb]; rfl
      · rw [hb]; rfl
      · rw [hb]; rfl
      · rw [hb]; rfl
      · intro s hs hne
        injection hs with h
        subst h
        rw [hb]; rfl
      · intro hor
        cases hor with
        | inl h => exact Option.noConfusion h
        | inr h => injection h with h2; exact absurd h2 h0

/-- C6 witness: the filter "category eq 'faq'" appears verbatim in the
body; omitting the filter leaves the body without a `filter` key. -/
theorem C6_search_body_shape_witness :
    rlookup (search_body "q" 2 (some "category eq \x27faq\x27")) "filter"
      = some (JValue.str "category eq \x27faq\x27")
    ∧ rlookup (search_body "q" 2 none) "filter" = none :=
  ⟨(C6_search_body_shape "q" 2 (some "category eq \x27faq\x27")).2.2.2.2.1
      "category eq \x27faq\x27" rfl (by decide),
   (C6_search_body_shape "q" 2 none).2.2.2.2.2 (Or.inl rfl)⟩

/-- C10: answer extraction takes the content of the first element of the
choices array — whenever the payload offers that path the extraction
succeeds with exactly that content; an empty or missing `choices` makes
it raise, and any extraction failure on a 200 generation response makes
the handler return the uniform 500 error instead of a ChatResponse. -/
theorem C10_answer_extraction (body choices first message content : JValue) :
    ((pyGetKey body "choices" = .ok choices
      ∧ pyGetIdx choices 0 = .ok first
      ∧ pyGetKey first "message" = .ok message
      ∧ pyGetKey message "content" = .ok content)
      → extract_answer body = .ok content)
    ∧ (∀ fields : List (String × JValue),
        rlookup fields "choices" = some (JValue.arr [])
        → extract_answer (JValue.obj fields) = .error PyError.indexError)
    ∧ (∀ fields : List (String × JValue),
        rlookup fields "choices" = none
        → extract_answer (JValue.obj fields) = .error (PyError.keyError "choices"))
    ∧ (∀ (req : QueryRequest) (env : Env) (e : PyError),
        env.openaiResp.status_code = 200
        → extract_answer env.openaiResp.body = .error e
        → ∃ msg, (query_documents req env).1 = HandlerResult.err 500 msg) := by
  refine ⟨?_, ?_, ?_, ?_⟩
  · rintro ⟨h1, h2, h3, h4⟩
    simp [extract_answer, h1, h2, h3, h4]
  · intro fields hf
    simp [extract_answer, pyGetKey, hf, pyGetIdx]
  · intro fields hf
    simp [extract_answer, pyGetKey, hf]
  · intro req env e h200 herr
    cases hs : search_documents req.query req.top_k req.filter env.searchResp with
    | error e2 =>
      exact ⟨"Error processing query: " ++ e2.text,
        by rw [qd_search_err req env e2 hs]; rfl⟩
    | ok rs =>
      cases hp : generate_prepare req.query rs with
      | error e2 =>
        exact ⟨"Error processing query: " ++ e2.text,
          by rw [qd_prepare_err req env rs e2 hs hp]; rfl⟩
      | ok pr =>
        obtain ⟨b, sources⟩ := pr
        have hfin : generate_finish env.openaiResp sources = .error e := by
          simp [generate_finish, h200, herr]
        exact ⟨"Error processing query: " ++ e.text,
          by rw [qd_finish_err req env rs b sources e hs hp hfin]; rfl⟩

/-- C10 witness: a payload with one well-formed choice extracts its
content; a payload with an empty choices array raises IndexError. -/
theorem C10_answer_extraction_witness :
    extract_answer okBody = .ok (JValue.str "hi")
    ∧ extract_answer (JValue.obj [("choices", JValue.arr [])])
        = .error PyError.indexError :=
  ⟨(C10_answer_extraction okBody
      (JValue.arr [JValue.obj [("message", JValue.obj [("content", JValue.str "hi")])]])
      (JValue.obj [("message", JValue.obj [("content", JValue.str "hi")])])
      (JValue.obj [("content", JValue.str "hi")])
      (JValue.str "hi")).1 ⟨rfl, rfl, rfl, rfl⟩,
   (C10_answer_extraction JValue.null JValue.null JValue.null JValue.null
      JValue.null).2.1 [("choices", JValue.arr [])] rfl⟩
